import Mathlib

/-!
Shallow embedding of `robot/running/timeouts.py` (Python 2).

The mutable `_Timeout` object becomes an immutable `Timeout` record; methods
that mutate the object become functions `Timeout → Timeout`, and methods that
read the wall clock take the current time `now : ℚ` as an explicit argument.
The external collaborators (`variables.replace_string`,
`utils.timestr_to_secs`, `utils.secs_to_timestr`, `ThreadedRunner`) are
parameters: fallible ones return `Except String _`, mirroring the
`DataError` / `ValueError` exceptions the `try` block catches.
Python 2's `round(x, 3)` (round half away from zero, three decimals) is
modelled exactly on ℚ by `pyRound3`.
-/

namespace Robot

/-- The concrete timeout kinds instantiated by the code: `TestTimeout` and
`KeywordTimeout` (the platform strategy classes are never instantiated
directly). -/
inductive TimeoutKind where
  | test
  | keyword
deriving DecidableEq

/-- `type(self).__name__.replace('Timeout', ' timeout')`: for the two
instantiated classes this yields "Test timeout" / "Keyword timeout". -/
def typeName : TimeoutKind → String
  | .test => "Test timeout"
  | .keyword => "Keyword timeout"

/-- State of a `_Timeout` object: fields set by `__init__` and mutated by
`replace_variables` and `start`. -/
structure Timeout where
  kind : TimeoutKind
  string : String
  message : String
  secs : ℚ
  starttime : ℚ
  error : Option String
deriving DecidableEq

/-- `__init__(timeout=None, message='')` before the optional
`replace_variables` call: `self.string = timeout or ''`, `self.secs = -1`,
`self.starttime = -1`, `self.error = None`. -/
def init (k : TimeoutKind) (timeout : Option String) (message : String) : Timeout :=
  { kind := k, string := timeout.getD "", message := message,
    secs := -1, starttime := -1, error := none }

/-- Python 2 `str.upper()` on the byte strings the code handles (basic
latin), character by character. -/
def pyUpper (s : String) : String :=
  String.mk (s.data.map Char.toUpper)

/-- Python 2 `str.lower()` on basic latin strings, character by
character. -/
def pyLower (s : String) : String :=
  String.mk (s.data.map Char.toLower)

/-- `active` property: `self.starttime > 0`. -/
def active (t : Timeout) : Bool :=
  decide (0 < t.starttime)

/-- Python 2 `round(x, 3)`: round to three decimals, ties away from zero. -/
def pyRound3 (x : ℚ) : ℚ :=
  if 0 ≤ x then (⌊x * 1000 + 1 / 2⌋ : ℚ) / 1000
  else -((⌊-x * 1000 + 1 / 2⌋ : ℚ) / 1000)

/-- `time_left()`: `-1` if not active, else
`round(self.secs - (time.time() - self.starttime), 3)`. -/
def time_left (now : ℚ) (t : Timeout) : ℚ :=
  if active t then pyRound3 (t.secs - (now - t.starttime)) else -1

/-- `timed_out()`: `self.active and self.time_left() <= 0`. -/
def timed_out (now : ℚ) (t : Timeout) : Bool :=
  active t && decide (time_left now t ≤ 0)

/-- `_get_timeout_error()`: the user message if truthy (non-empty), else
`'<type> <string> exceeded.'`. -/
def get_timeout_error (t : Timeout) : String :=
  if t.message ≠ "" then t.message
  else typeName t.kind ++ " " ++ t.string ++ " exceeded."

/-- `get_message()`. -/
def get_message (now : ℚ) (t : Timeout) : String :=
  if !active t then typeName t.kind ++ " not active."
  else if !timed_out now t then
    typeName t.kind ++ " " ++ t.string ++ " active. " ++
      toString (time_left now t) ++ " seconds left."
  else get_timeout_error t

/-- The `except (DataError, ValueError)` handler of `replace_variables`:
`self.secs = 0.000001` ("to make timeout active") and
`self.error = 'Setting %s failed: %s' % (self.type.lower(), unicode(err))`. -/
def set_resolution_error (t : Timeout) (err : String) : Timeout :=
  { t with secs := 1 / 1000000,
           error := some ("Setting " ++ pyLower (typeName t.kind) ++
                          " failed: " ++ err) }

/-- `replace_variables(variables)`.  `repl` is
`variables.replace_string`, `parse` is `utils.timestr_to_secs`, `fmt` is
`utils.secs_to_timestr`; each may raise (return `.error`), and any raise is
caught by `set_resolution_error`.  Assignments made before the failing call
persist, exactly as in the mutable original. -/
def replace_variables (repl : String → Except String String)
    (parse : String → Except String ℚ) (fmt : ℚ → Except String String)
    (t : Timeout) : Timeout :=
  match repl t.string with
  | .error err => set_resolution_error t err
  | .ok s =>
    let t1 := { t with string := s }
    if s = "" || pyUpper s = "NONE" then t1
    else
      match parse s with
      | .error err => set_resolution_error t1 err
      | .ok d =>
        let t2 := { t1 with secs := d }
        match fmt d with
        | .error err => set_resolution_error t2 err
        | .ok s2 =>
          let t3 := { t2 with string := s2 }
          match repl t3.message with
          | .error err => set_resolution_error t3 err
          | .ok m => { t3 with message := m }

/-- `start()`: `if self.secs > 0: self.starttime = time.time()`. -/
def start (now : ℚ) (t : Timeout) : Timeout :=
  if 0 < t.secs then { t with starttime := now } else t

/-- Python truthiness of `self.error` (`None` and `''` are falsy). -/
def error_set (t : Timeout) : Bool :=
  decide (t.error.getD "" ≠ "")

/-- Outcome of `run`: the returned value or the exception class raised
(`DataError`, `FrameworkError`, `TimeoutError`). -/
inductive RunResult (α : Type) where
  | ok (a : α)
  | dataError (msg : String)
  | frameworkError (msg : String)
  | timeoutError (msg : String)
deriving DecidableEq

/-- `run(runnable, args, kwargs)`.  `exec` abstracts
`self._execute_with_timeout(timeout, runnable, args, kwargs)`, the
enforcement strategy applied to the runnable; it receives the computed
`time_left()`. -/
def run {α : Type} (now : ℚ) (exec : ℚ → RunResult α) (t : Timeout) :
    RunResult α :=
  if error_set t then .dataError (t.error.getD "")
  else if !active t then .frameworkError "Timeout is not active"
  else
    let timeout := time_left now t
    if timeout ≤ 0 then .timeoutError (get_message now t)
    else exec timeout

/-- The external `ThreadedRunner` collaborator used by `TimeoutWithThread`,
at its interface boundary: `run_in_thread` waits up to the deadline and
reports completion, `get_result` is the runnable's result, `stop_thread`
may itself fail (`.error` carries `utils.get_error_message()`). -/
structure ThreadedRunner (α : Type) where
  run_in_thread : ℚ → Bool
  get_result : α
  stop_thread : Except String Unit

/-- `TimeoutWithThread._execute_with_timeout`. -/
def execute_with_timeout {α : Type} (t : Timeout) (runner : ThreadedRunner α)
    (timeout : ℚ) : RunResult α :=
  if runner.run_in_thread timeout then .ok runner.get_result
  else
    match runner.stop_thread with
    | .error msg =>
        .timeoutError ("Stopping keyword after " ++ pyLower (typeName t.kind) ++
                       " failed: " ++ msg)
    | .ok _ => .timeoutError (get_timeout_error t)

/-- Python 2 `cmp` on numbers. -/
def pycmp (a b : ℚ) : Int :=
  if a < b then -1 else if b < a then 1 else 0

/-- Python 2 `cmp` on booleans (`False < True`). -/
def pycmpBool (a b : Bool) : Int :=
  if a = b then 0 else if a = false then -1 else 1

/-- `__cmp__`: `cmp(not self.active, not other.active) or
cmp(self.time_left(), other.time_left())` (`x or y` on ints returns `x`
unless it is zero). -/
def timeout_cmp (now : ℚ) (t u : Timeout) : Int :=
  let c := pycmpBool (!active t) (!active u)
  if c = 0 then pycmp (time_left now t) (time_left now u) else c

/-- `TestTimeout`: a `_Timeout` plus the `_keyword_timeouted` flag
(class attribute `False`, so every fresh instance starts with `false`). -/
structure TestTimeout extends Timeout where
  keyword_timeouted : Bool
deriving DecidableEq

/-- `TestTimeout.set_keyword_timeout(timeout_occurred)`:
`self._keyword_timeouted = self._keyword_timeouted or timeout_occurred`. -/
def set_keyword_timeout (occurred : Bool) (t : TestTimeout) : TestTimeout :=
  { t with keyword_timeouted := t.keyword_timeouted || occurred }

/-- `TestTimeout.any_timeout_occurred()`:
`self.timed_out() or self._keyword_timeouted`. -/
def any_timeout_occurred (now : ℚ) (t : TestTimeout) : Bool :=
  timed_out now t.toTimeout || t.keyword_timeouted

/-- The resolution pipeline of `replace_variables` raises (with message
`err`) at one of its four fallible calls: resolving the timeout string,
parsing it, formatting the parsed value back, or resolving the message. -/
def resolution_fails (repl : String → Except String String)
    (parse : String → Except String ℚ) (fmt : ℚ → Except String String)
    (t : Timeout) (err : String) : Prop :=
  repl t.string = .error err ∨
  (∃ s, repl t.string = .ok s ∧ ¬(s = "" ∨ pyUpper s = "NONE") ∧
    (parse s = .error err ∨
     (∃ d, parse s = .ok d ∧
       (fmt d = .error err ∨
        (∃ s2, fmt d = .ok s2 ∧ repl t.message = .error err)))))

/-! Concrete instances used to evaluate the definitions on explicit inputs. -/

/-- A resolved (duration `d`) but not yet started tracker state: the state
of a fresh tracker right after a successful `replace_variables`. -/
def unstartedTracker (k : TimeoutKind) (str msg : String) (d : ℚ) : Timeout :=
  { kind := k, string := str, message := msg,
    secs := d, starttime := -1, error := none }

/-- A resolved but unstarted keyword tracker with duration `d` seconds. -/
def exTracker (d : ℚ) : Timeout :=
  unstartedTracker .keyword "1 second" "" d

/-- A started keyword timeout: 2 seconds, started at time 1. -/
def exActive : Timeout :=
  { kind := .keyword, string := "1 second", message := "",
    secs := 2, starttime := 1, error := none }

/-- A started keyword timeout: 5 seconds, started at time 1. -/
def exActive5 : Timeout :=
  { kind := .keyword, string := "5 seconds", message := "",
    secs := 5, starttime := 1, error := none }

/-- A tracker with a stored resolution error. -/
def exErr : Timeout :=
  { kind := .keyword, string := "1x", message := "",
    secs := -1, starttime := -1, error := some "boom" }

/-- A strategy stub that returns the deadline it was handed. -/
def exExec : ℚ → RunResult ℚ := fun q => RunResult.ok q

/-- A variable resolver that resolves every string to itself. -/
def exReplId : String → Except String String := fun s => .ok s

/-- A duration parser that rejects its input. -/
def exParseBad : String → Except String ℚ :=
  fun _ => .error "Invalid time string 1x"

/-- A duration formatter that always succeeds. -/
def exFmtOk : ℚ → Except String String := fun _ => .ok "1 second"

/-- A worker that finishes within any deadline, with result 42. -/
def exRunnerOk : ThreadedRunner ℕ :=
  { run_in_thread := fun _ => true, get_result := 42, stop_thread := .ok () }

/-- A worker that misses every deadline and whose stop call fails. -/
def exRunnerStopFail : ThreadedRunner ℕ :=
  { run_in_thread := fun _ => false, get_result := 0,
    stop_thread := .error "boom" }

/-- A worker that misses every deadline but stops cleanly. -/
def exRunnerStopOk : ThreadedRunner ℕ :=
  { run_in_thread := fun _ => false, get_result := 0, stop_thread := .ok () }

/-! Helper lemmas. -/

theorem pyRound3_eq_div (x : ℚ) (z : ℤ) (h0 : 0 ≤ x)
    (h1 : (z : ℚ) ≤ x * 1000 + 1 / 2) (h2 : x * 1000 + 1 / 2 < z + 1) :
    pyRound3 x = (z : ℚ) / 1000 := by
  rw [pyRound3, if_pos h0, Int.floor_eq_iff.mpr ⟨h1, h2⟩]

theorem pyRound3_nonpos (x : ℚ) (h : x ≤ 1 / 1000000) : pyRound3 x ≤ 0 := by
  rw [pyRound3]
  split
  · rename_i h0
    have hlt : x * 1000 + 1 / 2 < ((1 : ℤ) : ℚ) := by push_cast; linarith
    have hf : ⌊x * 1000 + 1 / 2⌋ ≤ 0 := by
      have := Int.floor_lt.mpr hlt
      omega
    have hq : ((⌊x * 1000 + 1 / 2⌋ : ℤ) : ℚ) ≤ 0 := by exact_mod_cast hf
    linarith
  · rename_i h0
    push_neg at h0
    have hf : 0 ≤ ⌊-x * 1000 + 1 / 2⌋ := Int.le_floor.mpr (by push_cast; nlinarith)
    have hq : (0 : ℚ) ≤ ((⌊-x * 1000 + 1 / 2⌋ : ℤ) : ℚ) := by exact_mod_cast hf
    linarith

theorem pyRound3_pos (x : ℚ) (h : 1 / 2000 ≤ x) : 0 < pyRound3 x := by
  have h0 : 0 ≤ x := by linarith
  rw [pyRound3, if_pos h0]
  have hf : 1 ≤ ⌊x * 1000 + 1 / 2⌋ := Int.le_floor.mpr (by push_cast; linarith)
  have hq : (1 : ℚ) ≤ ((⌊x * 1000 + 1 / 2⌋ : ℤ) : ℚ) := by exact_mod_cast hf
  linarith

theorem pyRound3_mono (x y : ℚ) (h0 : 0 ≤ x) (hxy : x ≤ y) :
    pyRound3 x ≤ pyRound3 y := by
  rw [pyRound3, pyRound3, if_pos h0, if_pos (le_trans h0 hxy)]
  have hf : ⌊x * 1000 + 1 / 2⌋ ≤ ⌊y * 1000 + 1 / 2⌋ :=
    Int.floor_le_floor (by linarith)
  have hq : ((⌊x * 1000 + 1 / 2⌋ : ℤ) : ℚ) ≤ ((⌊y * 1000 + 1 / 2⌋ : ℤ) : ℚ) := by
    exact_mod_cast hf
  linarith

theorem pyRound3_le (x : ℚ) (h0 : 0 ≤ x) : pyRound3 x ≤ x + 1 / 2000 := by
  rw [pyRound3, if_pos h0]
  have hq : ((⌊x * 1000 + 1 / 2⌋ : ℤ) : ℚ) ≤ x * 1000 + 1 / 2 := Int.floor_le _
  linarith

theorem append_ne_empty (a b : String) (h : a.data ≠ []) : a ++ b ≠ "" := by
  intro hc
  apply h
  have hd : (a ++ b).data = ("" : String).data := by rw [hc]
  rw [String.data_append] at hd
  exact List.append_eq_nil.mp hd |>.1

theorem setting_msg_ne_empty (s e : String) :
    ("Setting " ++ s ++ " failed: " ++ e) ≠ "" := by
  intro hc
  have hd : ("Setting " ++ s ++ " failed: " ++ e).data = [] := by rw [hc]
  simp only [String.data_append, List.append_eq_nil] at hd
  exact absurd hd.1.1.1 (by decide)

theorem replace_variables_starttime (repl : String → Except String String)
    (parse : String → Except String ℚ) (fmt : ℚ → Except String String)
    (t : Timeout) :
    (replace_variables repl parse fmt t).starttime = t.starttime := by
  rw [replace_variables]
  cases repl t.string with
  | error e => rfl
  | ok s =>
    dsimp only
    split
    · rfl
    · cases parse s with
      | error e => rfl
      | ok d =>
        dsimp only
        cases fmt d with
        | error e => rfl
        | ok s2 =>
          dsimp only
          cases repl t.message with
          | error e => rfl
          | ok m => rfl

theorem replace_variables_kind (repl : String → Except String String)
    (parse : String → Except String ℚ) (fmt : ℚ → Except String String)
    (t : Timeout) :
    (replace_variables repl parse fmt t).kind = t.kind := by
  rw [replace_variables]
  cases repl t.string with
  | error e => rfl
  | ok s =>
    dsimp only
    split
    · rfl
    · cases parse s with
      | error e => rfl
      | ok d =>
        dsimp only
        cases fmt d with
        | error e => rfl
        | ok s2 =>
          dsimp only
          cases repl t.message with
          | error e => rfl
          | ok m => rfl

theorem replace_variables_of_fails (repl : String → Except String String)
    (parse : String → Except String ℚ) (fmt : ℚ → Except String String)
    (t : Timeout) (err : String)
    (hfail : resolution_fails repl parse fmt t err) :
    (replace_variables repl parse fmt t).error =
      some ("Setting " ++ pyLower (typeName t.kind) ++ " failed: " ++ err) ∧
    (replace_variables repl parse fmt t).secs = 1 / 1000000 := by
  rcases hfail with h | ⟨s, hs, hnone, hrest⟩
  · rw [replace_variables, h]
    exact ⟨rfl, rfl⟩
  · have hcond : (decide (s = "") || decide (pyUpper s = "NONE")) = false := by
      push_neg at hnone
      simp [hnone.1, hnone.2]
    rcases hrest with h | ⟨d, hd, hrest⟩
    · rw [replace_variables, hs]
      simp only [hcond, Bool.false_eq_true, if_false, h]
      exact ⟨rfl, rfl⟩
    · rcases hrest with h | ⟨s2, hs2, hm⟩
      · rw [replace_variables, hs]
        simp only [hcond, Bool.false_eq_true, if_false, hd, h]
        exact ⟨rfl, rfl⟩
      · rw [replace_variables, hs]
        simp only [hcond, Bool.false_eq_true, if_false, hd, hs2, hm]
        exact ⟨rfl, rfl⟩

theorem replace_variables_error_cases (repl : String → Except String String)
    (parse : String → Except String ℚ) (fmt : ℚ → Except String String)
    (t : Timeout) :
    (replace_variables repl parse fmt t).error = t.error ∨
    ((replace_variables repl parse fmt t).secs = 1 / 1000000 ∧
      (replace_variables repl parse fmt t).error ≠ none) := by
  rw [replace_variables]
  cases repl t.string with
  | error e => exact Or.inr ⟨rfl, by simp [set_resolution_error]⟩
  | ok s =>
    dsimp only
    split
    · exact Or.inl rfl
    · cases parse s with
      | error e => exact Or.inr ⟨rfl, by simp [set_resolution_error]⟩
      | ok d =>
        dsimp only
        cases fmt d with
        | error e => exact Or.inr ⟨rfl, by simp [set_resolution_error]⟩
        | ok s2 =>
          dsimp only
          cases repl t.message with
          | error e => exact Or.inr ⟨rfl, by simp [set_resolution_error]⟩
          | ok m => exact Or.inl rfl

theorem foldl_keyword_sticky (bs : List Bool) (u : TestTimeout)
    (h : u.keyword_timeouted = true) :
    (bs.foldl (fun v c => set_keyword_timeout c v) u).keyword_timeouted = true := by
  induction bs generalizing u with
  | nil => exact h
  | cons b bs ih => exact ih _ (by simp [set_keyword_timeout, h])

/-! Claim theorems. -/

/-- C1: `run` checks its failure conditions in a fixed order, never invoking
the runnable in a failure case: a stored (truthy) `error` raises `DataError`
with that message, even on a never-started tracker; otherwise an inactive
tracker raises `FrameworkError 'Timeout is not active'`; otherwise a
non-positive `time_left()` raises `TimeoutError` with the expiry message;
only otherwise is the enforcement strategy invoked, with the computed
`time_left()`. -/
theorem run_failure_order (now : ℚ) (t : Timeout) :
    (∀ e, t.error = some e → e ≠ "" →
      ∀ (α : Type) (ex : ℚ → RunResult α), run now ex t = RunResult.dataError e) ∧
    (error_set t = false → active t = false →
      ∀ (α : Type) (ex : ℚ → RunResult α),
        run now ex t = RunResult.frameworkError "Timeout is not active") ∧
    (error_set t = false → active t = true → time_left now t ≤ 0 →
      ∀ (α : Type) (ex : ℚ → RunResult α),
        run now ex t = RunResult.timeoutError (get_timeout_error t)) ∧
    (error_set t = false → active t = true → 0 < time_left now t →
      ∀ (α : Type) (ex : ℚ → RunResult α), run now ex t = ex (time_left now t)) := by
  refine ⟨?_, ?_, ?_, ?_⟩
  · intro e he hne α ex
    have hset : error_set t = true := by simp [error_set, he, hne]
    simp [run, hset, he]
  · intro h1 h2 α ex
    simp [run, h1, h2]
  · intro h1 h2 h3 α ex
    have hm : get_message now t = get_timeout_error t := by
      rw [get_message]
      simp [h2, timed_out, h3]
    simp [run, h1, h2, h3, hm]
  · intro h1 h2 h3 α ex
    simp [run, h1, h2, not_le.mpr h3]

/-- Witness for C1: all four branches of `run` evaluated on concrete
trackers. -/
theorem run_failure_order_witness :
    run 5 exExec exErr = RunResult.dataError "boom" ∧
    run 5 exExec (init .keyword (some "1 second") "") =
      RunResult.frameworkError "Timeout is not active" ∧
    run 3 exExec exActive =
      RunResult.timeoutError "Keyword timeout 1 second exceeded." ∧
    run 2 exExec exActive = exExec 1 := by
  have hact : active exActive = true := by decide
  have htl3 : time_left 3 exActive = 0 := by
    have harg : exActive.secs - ((3 : ℚ) - exActive.starttime) = 0 := by
      norm_num [exActive]
    rw [time_left, if_pos hact, harg,
        pyRound3_eq_div 0 0 le_rfl (by norm_num) (by norm_num)]
    norm_num
  have htl2 : time_left 2 exActive = 1 := by
    have harg : exActive.secs - ((2 : ℚ) - exActive.starttime) = 1 := by
      norm_num [exActive]
    rw [time_left, if_pos hact, harg,
        pyRound3_eq_div 1 1000 (by norm_num) (by norm_num) (by norm_num)]
    norm_num
  refine ⟨(run_failure_order 5 exErr).1 "boom" rfl (by decide) ℚ exExec, ?_, ?_, ?_⟩
  · exact (run_failure_order 5 (init .keyword (some "1 second") "")).2.1
      (by decide) (by decide) ℚ exExec
  · have h := (run_failure_order 3 exActive).2.2.1 (by decide) hact
      (by rw [htl3]) ℚ exExec
    exact h.trans (by decide)
  · have h := (run_failure_order 2 exActive).2.2.2 (by decide) hact
      (by rw [htl2]; norm_num) ℚ exExec
    rw [h, htl2]

/-- C3: under the cooperative-worker-abort strategy
(`TimeoutWithThread._execute_with_timeout`), a worker that finishes within
the deadline yields its result unchanged; a deadline miss always ends in a
`TimeoutError` — with the stop-failure message if `stop_thread` fails, else
the ordinary expiry message — and is never converted into a success. -/
theorem thread_strategy_deadline (α : Type) (t : Timeout)
    (runner : ThreadedRunner α) (q : ℚ) :
    (runner.run_in_thread q = true →
      execute_with_timeout t runner q = RunResult.ok runner.get_result) ∧
    (runner.run_in_thread q = false →
      (∀ m, runner.stop_thread = .error m →
        execute_with_timeout t runner q =
          RunResult.timeoutError
            ("Stopping keyword after " ++ pyLower (typeName t.kind) ++
             " failed: " ++ m)) ∧
      (runner.stop_thread = .ok () →
        execute_with_timeout t runner q =
          RunResult.timeoutError (get_timeout_error t)) ∧
      (∀ a, execute_with_timeout t runner q ≠ RunResult.ok a)) := by
  constructor
  · intro h
    simp [execute_with_timeout, h]
  · intro h
    refine ⟨?_, ?_, ?_⟩
    · intro m hm
      simp [execute_with_timeout, h, hm]
    · intro hm
      simp [execute_with_timeout, h, hm]
    · intro a
      cases hs : runner.stop_thread with
      | error m => simp [execute_with_timeout, h, hs]
      | ok u => simp [execute_with_timeout, h, hs]

/-- Witness for C3: the three outcomes on concrete workers. -/
theorem thread_strategy_deadline_witness :
    execute_with_timeout exActive exRunnerOk 1 = RunResult.ok 42 ∧
    execute_with_timeout exActive exRunnerStopFail 1 =
      RunResult.timeoutError
        "Stopping keyword after keyword timeout failed: boom" ∧
    execute_with_timeout exActive exRunnerStopOk 1 =
      RunResult.timeoutError "Keyword timeout 1 second exceeded." := by
  refine ⟨(thread_strategy_deadline ℕ exActive exRunnerOk 1).1 rfl, ?_, ?_⟩
  · have h := ((thread_strategy_deadline ℕ exActive exRunnerStopFail 1).2
      rfl).1 "boom" rfl
    exact h.trans (by decide)
  · have h := ((thread_strategy_deadline ℕ exActive exRunnerStopOk 1).2
      rfl).2.1 rfl
    exact h.trans (by decide)

/-- C4: `__cmp__` orders an active tracker before an inactive one
regardless of remaining time, and among two active trackers orders the one
with smaller `time_left()` first. -/
theorem cmp_orders_by_activity_then_urgency (now : ℚ) (t u : Timeout) :
    (active t = true → active u = false → timeout_cmp now t u = -1) ∧
    (active t = true → active u = true →
      time_left now t < time_left now u → timeout_cmp now t u = -1) := by
  constructor
  · intro ht hu
    simp [timeout_cmp, ht, hu, pycmpBool]
  · intro ht hu hlt
    simp [timeout_cmp, ht, hu, pycmpBool, pycmp, hlt]

/-- Witness for C4: an active 2-second tracker sorts before an active
5-second tracker and before an inactive one. -/
theorem cmp_orders_witness :
    timeout_cmp 1 exActive exActive5 = -1 ∧
    timeout_cmp 1 exActive (exTracker 1000) = -1 := by
  have h2 : time_left 1 exActive = 2 := by
    have harg : exActive.secs - ((1 : ℚ) - exActive.starttime) = 2 := by
      norm_num [exActive]
    rw [time_left, if_pos (by decide), harg,
        pyRound3_eq_div 2 2000 (by norm_num) (by norm_num) (by norm_num)]
    norm_num
  have h5 : time_left 1 exActive5 = 5 := by
    have harg : exActive5.secs - ((1 : ℚ) - exActive5.starttime) = 5 := by
      norm_num [exActive5]
    rw [time_left, if_pos (by decide), harg,
        pyRound3_eq_div 5 5000 (by norm_num) (by norm_num) (by norm_num)]
    norm_num
  exact ⟨(cmp_orders_by_activity_then_urgency 1 exActive exActive5).2
           (by decide) (by decide) (by rw [h2, h5]; norm_num),
         (cmp_orders_by_activity_then_urgency 1 exActive (exTracker 1000)).1
           (by decide) (by decide)⟩

/-- C9: the test-level `_keyword_timeouted` flag is sticky — once set by
`set_keyword_timeout(True)` it survives any later sequence of
`set_keyword_timeout` calls, including `False` ones — and
`any_timeout_occurred` is the logical OR of the tracker's own expiry and
that flag. -/
theorem test_keyword_flag_sticky (tt : TestTimeout) (bs : List Bool) (now : ℚ) :
    (set_keyword_timeout true tt).keyword_timeouted = true ∧
    ((bs.foldl (fun v c => set_keyword_timeout c v)
        (set_keyword_timeout true tt)).keyword_timeouted = true) ∧
    any_timeout_occurred now tt =
      (timed_out now tt.toTimeout || tt.keyword_timeouted) := by
  refine ⟨by simp [set_keyword_timeout], ?_, rfl⟩
  exact foldl_keyword_sticky bs _ (by simp [set_keyword_timeout])

/-- Witness for C9: the flag set once survives two later `False` calls. -/
theorem test_keyword_flag_sticky_witness :
    (set_keyword_timeout true ⟨exActive, false⟩).keyword_timeouted = true ∧
    (([false, false] : List Bool).foldl (fun v c => set_keyword_timeout c v)
      (set_keyword_timeout true ⟨exActive, false⟩)).keyword_timeouted = true :=
  ⟨(test_keyword_flag_sticky ⟨exActive, false⟩ [false, false] 0).1,
   (test_keyword_flag_sticky ⟨exActive, false⟩ [false, false] 0).2.1⟩

/-- C10: any two inactive trackers compare as equal — both report
`time_left() = -1` — regardless of their configured durations or spec
strings. -/
theorem inactive_trackers_compare_equal (now : ℚ) (t u : Timeout)
    (ht : active t = false) (hu : active u = false) :
    timeout_cmp now t u = 0 ∧ time_left now t = -1 ∧ time_left now u = -1 := by
  have h1 : time_left now t = -1 := by rw [time_left, if_neg (by simp [ht])]
  have h2 : time_left now u = -1 := by rw [time_left, if_neg (by simp [hu])]
  refine ⟨?_, h1, h2⟩
  simp [timeout_cmp, ht, hu, pycmpBool, pycmp, h1, h2]

/-- Witness for C10: an unstarted tracker resolved to 1000 seconds compares
equal to a never-resolved one. -/
theorem inactive_trackers_compare_equal_witness :
    timeout_cmp 7 (exTracker 1000) (init .test none "") = 0 ∧
    time_left 7 (exTracker 1000) = -1 ∧
    time_left 7 (init .test none "") = -1 :=
  inactive_trackers_compare_equal 7 _ _ (by decide) (by decide)

/-- C2: when resolution or parsing of the spec fails, `replace_variables`
swallows the error: it stores a descriptive message (embedding the
collaborator's error text verbatim) in `error`, sets `secs` to the epsilon
`0.000001`, so that after `start` the tracker is active and already
expired, and every subsequent `run` raises `DataError` with that stored
message for every strategy — the runnable is never invoked. -/
theorem resolution_error_deferred_to_run
    (repl : String → Except String String) (parse : String → Except String ℚ)
    (fmt : ℚ → Except String String) (t : Timeout) (err : String)
    (hfail : resolution_fails repl parse fmt t err) :
    (replace_variables repl parse fmt t).error =
      some ("Setting " ++ pyLower (typeName t.kind) ++ " failed: " ++ err) ∧
    (replace_variables repl parse fmt t).secs = 1 / 1000000 ∧
    (∃ pre, ("Setting " ++ pyLower (typeName t.kind) ++ " failed: " ++ err) =
      pre ++ err) ∧
    (∀ now : ℚ, 0 < now →
      active (start now (replace_variables repl parse fmt t)) = true ∧
      ∀ now', now ≤ now' →
        timed_out now' (start now (replace_variables repl parse fmt t)) = true ∧
        ∀ (α : Type) (ex : ℚ → RunResult α),
          run now' ex (start now (replace_variables repl parse fmt t)) =
            RunResult.dataError
              ("Setting " ++ pyLower (typeName t.kind) ++ " failed: " ++ err)) := by
  obtain ⟨herr, hsecs⟩ := replace_variables_of_fails repl parse fmt t err hfail
  refine ⟨herr, hsecs,
    ⟨"Setting " ++ pyLower (typeName t.kind) ++ " failed: ", rfl⟩, ?_⟩
  intro now hnow
  have hstart : start now (replace_variables repl parse fmt t) =
      { replace_variables repl parse fmt t with starttime := now } := by
    rw [start, if_pos (by rw [hsecs]; norm_num)]
  have hact : active (start now (replace_variables repl parse fmt t)) = true := by
    rw [hstart]
    simp [active, hnow]
  refine ⟨hact, ?_⟩
  intro now' hnow'
  have htl : time_left now' (start now (replace_variables repl parse fmt t)) ≤ 0 := by
    rw [time_left, if_pos hact, hstart]
    apply pyRound3_nonpos
    have : ({ replace_variables repl parse fmt t with starttime := now } :
        Timeout).secs = 1 / 1000000 := hsecs
    rw [this]
    dsimp only
    linarith
  have htdo : timed_out now' (start now (replace_variables repl parse fmt t)) =
      true := by
    rw [timed_out, hact]
    simp [htl]
  refine ⟨htdo, ?_⟩
  intro α ex
  have herr' : (start now (replace_variables repl parse fmt t)).error =
      some ("Setting " ++ pyLower (typeName t.kind) ++ " failed: " ++ err) := by
    rw [hstart]
    exact herr
  have hset : error_set (start now (replace_variables repl parse fmt t)) =
      true := by
    simp [error_set, herr', setting_msg_ne_empty]
  simp [run, hset, herr']

/-- Witness for C2: an unparsable spec `"1x"` with an identity resolver. -/
theorem resolution_error_deferred_witness :
    (replace_variables exReplId exParseBad exFmtOk
        (init .keyword (some "1x") "")).error =
      some "Setting keyword timeout failed: Invalid time string 1x" ∧
    active (start 1 (replace_variables exReplId exParseBad exFmtOk
      (init .keyword (some "1x") ""))) = true ∧
    timed_out 2 (start 1 (replace_variables exReplId exParseBad exFmtOk
      (init .keyword (some "1x") ""))) = true ∧
    run 2 exExec (start 1 (replace_variables exReplId exParseBad exFmtOk
      (init .keyword (some "1x") ""))) =
      RunResult.dataError "Setting keyword timeout failed: Invalid time string 1x" := by
  have h := resolution_error_deferred_to_run exReplId exParseBad exFmtOk
    (init .keyword (some "1x") "") "Invalid time string 1x"
    (Or.inr ⟨"1x", rfl, by decide, Or.inl rfl⟩)
  obtain ⟨h1, h2⟩ := h.2.2.2 1 (by norm_num)
  obtain ⟨h3, h4⟩ := h2 2 (by norm_num)
  exact ⟨h.1.trans (by decide), h1, h3, (h4 ℚ exExec).trans (by decide)⟩

/-- C5: a spec that resolves to the empty string or to "NONE" in any letter
case leaves a fresh tracker error-free and permanently inactive: `secs`
stays `-1` and `start` never activates it. -/
theorem resolve_none_leaves_inactive (k : TimeoutKind) (os : Option String)
    (m : String) (repl : String → Except String String)
    (parse : String → Except String ℚ) (fmt : ℚ → Except String String)
    (s : String) (hrepl : repl (init k os m).string = Except.ok s)
    (hnone : s = "" ∨ pyUpper s = "NONE") :
    (replace_variables repl parse fmt (init k os m)).secs = -1 ∧
    (replace_variables repl parse fmt (init k os m)).error = none ∧
    active (replace_variables repl parse fmt (init k os m)) = false ∧
    ∀ now, start now (replace_variables repl parse fmt (init k os m)) =
        replace_variables repl parse fmt (init k os m) ∧
      active (start now (replace_variables repl parse fmt (init k os m))) =
        false := by
  have hcond : (decide (s = "") || decide (pyUpper s = "NONE")) = true := by
    rcases hnone with h | h <;> simp [h]
  have hres : replace_variables repl parse fmt (init k os m) =
      { init k os m with string := s } := by
    rw [replace_variables, hrepl]
    simp only [hcond, if_true]
  rw [hres]
  refine ⟨rfl, rfl, by norm_num [active, init], ?_⟩
  intro now
  have hst : start now ({ init k os m with string := s } : Timeout) =
      { init k os m with string := s } := by
    rw [start, if_neg (by norm_num [init])]
  exact ⟨hst, by rw [hst]; norm_num [active, init]⟩

/-- Witness for C5: spec `"NoNe"` with an identity resolver. -/
theorem resolve_none_leaves_inactive_witness :
    (replace_variables exReplId exParseBad exFmtOk
      (init .test (some "NoNe") "")).secs = -1 ∧
    (replace_variables exReplId exParseBad exFmtOk
      (init .test (some "NoNe") "")).error = none ∧
    active (replace_variables exReplId exParseBad exFmtOk
      (init .test (some "NoNe") "")) = false ∧
    start 3 (replace_variables exReplId exParseBad exFmtOk
      (init .test (some "NoNe") "")) =
      replace_variables exReplId exParseBad exFmtOk
        (init .test (some "NoNe") "") := by
  have h := resolve_none_leaves_inactive .test (some "NoNe") "" exReplId
    exParseBad exFmtOk "NoNe" rfl (Or.inr (by decide))
  exact ⟨h.1, h.2.1, h.2.2.1, (h.2.2.2 3).1⟩

/-- Counterexample for C6: millisecond rounding breaks the claim as stated.
A 1-second tracker queried 0.9996 s after starting (strictly before the
deadline) already reports `timed_out = true`, and a 1.0016-second tracker
queried 0.0001 s after starting reports `time_left = 1.002`, which exceeds
the configured duration, so `time_left` is not within `[0, d]`. -/
theorem query_before_deadline_counterexample :
    ((19996 : ℚ) / 10000 - 1 < 1 ∧
      timed_out (19996 / 10000) (start 1 (exTracker 1)) = true) ∧
    ((1 : ℚ) / 10000 < 10016 / 10000 ∧
      time_left (1 + 1 / 10000) (start 1 (exTracker (10016 / 10000))) =
        1002 / 1000 ∧
      (10016 : ℚ) / 10000 < 1002 / 1000) := by
  have hs1 : start 1 (exTracker 1) = { exTracker 1 with starttime := 1 } := by
    rw [start, if_pos]
    norm_num [exTracker, unstartedTracker]
  have hact1 : active (start 1 (exTracker 1)) = true := by
    rw [hs1]; decide
  have hs2 : start 1 (exTracker (10016 / 10000)) =
      { exTracker (10016 / 10000) with starttime := 1 } := by
    rw [start, if_pos]
    norm_num [exTracker, unstartedTracker]
  have hact2 : active (start 1 (exTracker (10016 / 10000))) = true := by
    rw [hs2]; decide
  refine ⟨⟨by norm_num, ?_⟩, by norm_num, ?_, by norm_num⟩
  · have htl : time_left (19996 / 10000) (start 1 (exTracker 1)) = 0 := by
      rw [time_left, if_pos hact1, hs1]
      have harg : ({ exTracker 1 with starttime := 1 } : Timeout).secs -
          ((19996 : ℚ) / 10000 -
            ({ exTracker 1 with starttime := 1 } : Timeout).starttime) =
          4 / 10000 := by
        norm_num [exTracker, unstartedTracker]
      rw [harg, pyRound3_eq_div (4 / 10000) 0 (by norm_num) (by norm_num)
        (by norm_num)]
      norm_num
    rw [timed_out, hact1]
    simp [htl]
  · rw [time_left, if_pos hact2, hs2]
    have harg : ({ exTracker (10016 / 10000) with starttime := 1 } : Timeout).secs -
        ((1 : ℚ) + 1 / 10000 -
          ({ exTracker (10016 / 10000) with starttime := 1 } : Timeout).starttime) =
        10015 / 10000 := by
      norm_num [exTracker, unstartedTracker]
    rw [harg, pyRound3_eq_div (10015 / 10000) 1002 (by norm_num) (by norm_num)
      (by norm_num)]
    norm_num

/-- C6 (amended): with `d > 0`, `0 ≤ e` and at least half a millisecond of
real time remaining (`d - e ≥ 0.0005`), a started tracker queried at
elapsed `e` reports `active = true`, `timed_out = false`, and
`time_left() = round(d - e, 3)`, which is positive and at most
`round(d, 3) ≤ d + 0.0005`; `time_left()` is `-1` for any inactive
tracker.  (Within the last half millisecond, rounding can already report
expiry, and `time_left` can exceed `d` by up to `0.0005`.) -/
theorem query_before_deadline_amended (d e s : ℚ) (k : TimeoutKind)
    (str msg : String) (hd : 0 < d) (hs : 0 < s) (he : 0 ≤ e)
    (hde : 1 / 2000 ≤ d - e) :
    active (start s (unstartedTracker k str msg d)) = true ∧
    timed_out (s + e) (start s (unstartedTracker k str msg d)) = false ∧
    time_left (s + e) (start s (unstartedTracker k str msg d)) =
      pyRound3 (d - e) ∧
    0 < time_left (s + e) (start s (unstartedTracker k str msg d)) ∧
    time_left (s + e) (start s (unstartedTracker k str msg d)) ≤ pyRound3 d ∧
    pyRound3 d ≤ d + 1 / 2000 ∧
    (∀ u : Timeout, active u = false → time_left (s + e) u = -1) := by
  have hstart : start s (unstartedTracker k str msg d) =
      { unstartedTracker k str msg d with starttime := s } := by
    rw [start, if_pos (show 0 < (unstartedTracker k str msg d).secs from hd)]
  have hact : active (start s (unstartedTracker k str msg d)) = true := by
    rw [hstart]
    simp [active, hs]
  have htl : time_left (s + e) (start s (unstartedTracker k str msg d)) =
      pyRound3 (d - e) := by
    rw [time_left, if_pos hact, hstart]
    show pyRound3 (d - (s + e - s)) = pyRound3 (d - e)
    congr 1
    ring
  have hpos : 0 < pyRound3 (d - e) := pyRound3_pos _ hde
  have htdo : timed_out (s + e) (start s (unstartedTracker k str msg d)) =
      false := by
    rw [timed_out, hact, htl]
    simp [not_le.mpr hpos]
  refine ⟨hact, htdo, htl, by rw [htl]; exact hpos, ?_, pyRound3_le _ hd.le, ?_⟩
  · rw [htl]
    exact pyRound3_mono _ _ (by linarith) (by linarith)
  · intro u hu
    rw [time_left, if_neg (by simp [hu])]

/-- Witness for C6 (amended): 2-second tracker queried 1 s in. -/
theorem query_before_deadline_amended_witness :
    active (start 1 (unstartedTracker .keyword "1 second" "" 2)) = true ∧
    timed_out 2 (start 1 (unstartedTracker .keyword "1 second" "" 2)) = false ∧
    0 < time_left 2 (start 1 (unstartedTracker .keyword "1 second" "" 2)) := by
  have h := query_before_deadline_amended 2 1 1 .keyword "1 second" ""
    (by norm_num) (by norm_num) (by norm_num) (by norm_num)
  have h2 := h.2.1
  have h3 := h.2.2.2.1
  rw [show (1 : ℚ) + 1 = 2 from by norm_num] at h2 h3
  exact ⟨h.1, h2, h3⟩

/-- Counterexample for C7: `start` has no single-use guard, so a second
call reassigns `starttime`: a 1-second tracker started at time 5 and again
at time 7 ends with `starttime = 7 ≠ 5`. -/
theorem restart_changes_starttime_counterexample :
    active (start 5 (exTracker 1)) = true ∧
    (start 5 (exTracker 1)).starttime = 5 ∧
    (start 7 (start 5 (exTracker 1))).starttime = 7 ∧
    (start 7 (start 5 (exTracker 1))).starttime ≠
      (start 5 (exTracker 1)).starttime := by
  have h5 : start 5 (exTracker 1) = { exTracker 1 with starttime := 5 } := by
    rw [start, if_pos]
    norm_num [exTracker, unstartedTracker]
  have h7 : start 7 ({ exTracker 1 with starttime := 5 } : Timeout) =
      { exTracker 1 with starttime := 7 } := by
    rw [start, if_pos]
    norm_num [exTracker, unstartedTracker]
  refine ⟨by rw [h5]; decide, by rw [h5], by rw [h5, h7], ?_⟩
  rw [h5, h7]
  show (7 : ℚ) ≠ 5
  norm_num

/-- C7 (amended): `starttime` is changed only by `start`:
`replace_variables` and `set_keyword_timeout` preserve it, `start` on a
tracker with non-positive duration is a no-op, and `start` on a tracker
with positive duration (re)assigns `starttime` to the current time —
including on an already-started tracker. -/
theorem starttime_preserved_except_start (t : Timeout) (tt : TestTimeout)
    (repl : String → Except String String) (parse : String → Except String ℚ)
    (fmt : ℚ → Except String String) (b : Bool) (now : ℚ) :
    (replace_variables repl parse fmt t).starttime = t.starttime ∧
    (set_keyword_timeout b tt).starttime = tt.starttime ∧
    (0 < t.secs → (start now t).starttime = now) ∧
    (t.secs ≤ 0 → start now t = t) := by
  refine ⟨replace_variables_starttime repl parse fmt t, rfl, ?_, ?_⟩
  · intro h
    rw [start, if_pos h]
  · intro h
    rw [start, if_neg (not_lt.mpr h)]

/-- Witness for C7 (amended). -/
theorem starttime_preserved_except_start_witness :
    (replace_variables exReplId exParseBad exFmtOk exActive).starttime =
      exActive.starttime ∧
    (start 5 (exTracker 1)).starttime = 5 ∧
    start 5 (exTracker (-1)) = exTracker (-1) :=
  ⟨(starttime_preserved_except_start exActive ⟨exActive, false⟩ exReplId
      exParseBad exFmtOk false 5).1,
   (starttime_preserved_except_start (exTracker 1) ⟨exActive, false⟩ exReplId
      exParseBad exFmtOk false 5).2.2.1
     (by norm_num [exTracker, unstartedTracker]),
   (starttime_preserved_except_start (exTracker (-1)) ⟨exActive, false⟩
      exReplId exParseBad exFmtOk false 5).2.2.2
     (by norm_num [exTracker, unstartedTracker])⟩

/-- Counterexample for C8: after a failed resolution the tracker has a
stored error and `secs = 0.000001 > 0`, so `durationSeconds ≤ 0` does not
hold in error states. -/
theorem epsilon_secs_counterexample :
    (replace_variables exReplId exParseBad exFmtOk
      (init .keyword (some "1x") "")).error ≠ none ∧
    0 < (replace_variables exReplId exParseBad exFmtOk
      (init .keyword (some "1x") "")).secs := by
  have h := replace_variables_of_fails exReplId exParseBad exFmtOk
    (init .keyword (some "1x") "") "Invalid time string 1x"
    (Or.inr ⟨"1x", rfl, by decide, Or.inl rfl⟩)
  exact ⟨by rw [h.1]; simp, by rw [h.2]; norm_num⟩

/-- C8 (amended): `secs` is `-1 ≤ 0` on a freshly constructed tracker
(before resolution), and in every state where a resolution error occurred
it equals the small positive epsilon `0.000001 > 0`, deliberately making
the tracker active and immediately expired. -/
theorem secs_nonpositive_before_resolution (k : TimeoutKind)
    (os : Option String) (m : String) (repl : String → Except String String)
    (parse : String → Except String ℚ) (fmt : ℚ → Except String String)
    (t : Timeout) (ht : t.error = none) :
    (init k os m).secs ≤ 0 ∧
    ((replace_variables repl parse fmt t).error ≠ none →
      (replace_variables repl parse fmt t).secs = 1 / 1000000 ∧
      0 < (replace_variables repl parse fmt t).secs) := by
  refine ⟨by norm_num [init], ?_⟩
  intro hne
  rcases replace_variables_error_cases repl parse fmt t with h | h
  · rw [ht] at h
    exact absurd h hne
  · exact ⟨h.1, by rw [h.1]; norm_num⟩

/-- Witness for C8 (amended). -/
theorem secs_nonpositive_before_resolution_witness :
    (init .test (some "1 second") "").secs ≤ 0 ∧
    (replace_variables exReplId exParseBad exFmtOk
      (init .keyword (some "1x") "")).secs = 1 / 1000000 := by
  have h := secs_nonpositive_before_resolution .test (some "1 second") ""
    exReplId exParseBad exFmtOk (init .keyword (some "1x") "") rfl
  have hf := replace_variables_of_fails exReplId exParseBad exFmtOk
    (init .keyword (some "1x") "") "Invalid time string 1x"
    (Or.inr ⟨"1x", rfl, by decide, Or.inl rfl⟩)
  exact ⟨h.1, (h.2 (by rw [hf.1]; simp)).1⟩

end Robot
